import Mathlib

/-!
Shallow embedding of the SortSense backend (src/backend/app.py, with the stale
build copy src/backend/.aws-sam/build/ApiFunction/app.py where noted).

Python `re` semantics are embedded by a small backtracking matcher covering
exactly the constructs the source's five patterns use: literals (case-
insensitive under re.I), single-character classes, ordered alternation,
greedy `+` over a class, lazy `.*?`, greedy `?`, and capture groups.
Character classes use their ASCII meaning; all inputs of interest are ASCII.
Python floats are modelled as rationals (ℚ): every number the parser touches
is a short decimal literal, and no claim depends on binary rounding.
-/

namespace SortSense

/-- ASCII `\d`. -/
def isDigitCh (c : Char) : Bool := c.isDigit

/-- ASCII `\w` = `[A-Za-z0-9_]`. -/
def isWordCh (c : Char) : Bool := c.isAlphanum || c = '_'

/-- ASCII `\s` = `[ \t\n\r\f\v]`. -/
def isSpaceCh (c : Char) : Bool :=
  c = ' ' || c = '\t' || c = '\n' || c = '\r' || c = '\x0b' || c = '\x0c'

/-- Dot class `.` without re.DOTALL: any character except newline. -/
def isDotCh (c : Char) : Bool := c ≠ '\n'

/-- Regular expressions, restricted to the constructs appearing in
`parse_invoice_text`'s five patterns. Repetition only ever applies to a
single-character class in the source, so `starL`/`plusG` take a character
predicate directly (which also makes the matcher structurally total). -/
inductive RE where
  | eps : RE
  | chP : (Char → Bool) → RE
  | seq : RE → RE → RE
  | alt : RE → RE → RE
  | starL : (Char → Bool) → RE
  | plusG : (Char → Bool) → RE
  | group : Nat → RE → RE

/-- Captured groups: group index paired with the captured characters. -/
abbrev Caps := List (Nat × List Char)

/-- Length of the maximal prefix whose characters satisfy `p`. -/
def maxRun (p : Char → Bool) : List Char → Nat
  | [] => 0
  | c :: cs => if p c then maxRun p cs + 1 else 0

/-- Try `f` on each element in order; first success wins (backtracking order). -/
def firstSome (f : Nat → Option Caps) : List Nat → Option Caps
  | [] => none
  | i :: is => (f i).orElse fun _ => firstSome f is

/-- Backtracking matcher in continuation style, mirroring CPython `re`:
ordered alternation tries the left branch first, greedy repetition tries the
longest run first, lazy repetition the shortest. -/
def matchRE : RE → List Char → Caps → (List Char → Caps → Option Caps) → Option Caps
  | .eps, s, caps, k => k s caps
  | .chP p, s, caps, k =>
      match s with
      | [] => none
      | c :: rest => if p c then k rest caps else none
  | .seq a b, s, caps, k => matchRE a s caps fun s1 c1 => matchRE b s1 c1 k
  | .alt a b, s, caps, k => (matchRE a s caps k).orElse fun _ => matchRE b s caps k
  | .starL p, s, caps, k =>
      firstSome (fun i => k (s.drop i) caps) (List.range (maxRun p s + 1))
  | .plusG p, s, caps, k =>
      firstSome (fun i => k (s.drop i) caps) ((List.range (maxRun p s + 1)).drop 1).reverse
  | .group n r, s, caps, k =>
      matchRE r s caps fun s1 c1 => k s1 ((n, s.take (s.length - s1.length)) :: c1)

/-- Search as in `re.search`: try each start position left to right; the pattern itself is
unanchored on the right (first overall success wins). -/
def searchAux (r : RE) : List Char → Option Caps
  | [] => matchRE r [] [] fun _ caps => some caps
  | s@(_ :: rest) =>
      match matchRE r s [] fun _ caps => some caps with
      | some caps => some caps
      | none => searchAux r rest

/-- Run `re.search(pattern, text)` returning the capture list on success. -/
def reSearch (r : RE) (t : String) : Option Caps := searchAux r t.data

/-- Case-insensitive literal (re.I). -/
def litCI (w : String) : RE :=
  w.data.foldr (fun c acc => .seq (.chP fun d => d.toLower = c.toLower) acc) .eps

/-- Greedy `?` over a single-character class. -/
def optC (p : Char → Bool) : RE := .alt (.chP p) .eps

/-- Number pattern `\d+(?:\.\d+)?` (the `?` greedy: ordered alternation, present first). -/
def numRE : RE :=
  .seq (.plusG isDigitCh)
    (.alt (.seq (.chP fun c => c = '.') (.plusG isDigitCh)) .eps)

/-- Unit pattern `(?:kg|tons?)` under re.I. -/
def unitRE : RE := .alt (litCI "kg") (.seq (litCI "ton") (optC fun c => c.toLower = 's'))

/-- Weight pattern `kind + r".*?(\d+(?:\.\d+)?)\s?(?:kg|tons?)"` (app.py line 155). -/
def kgRE (kind : RE) : RE :=
  .seq kind (.seq (.starL isDotCh)
    (.seq (.group 1 numRE) (.seq (optC isSpaceCh) unitRE)))

/-- Cost pattern `kind + r".*?\$?\s?(\d+(?:\.\d+)?)"` (app.py line 156). -/
def usdRE (kind : RE) : RE :=
  .seq kind (.seq (.starL isDotCh)
    (.seq (optC fun c => c = '$') (.seq (optC isSpaceCh) (.group 1 numRE))))

/-- Keyword `recycl\w+` under re.I. -/
def recyclKind : RE := .seq (litCI "recycl") (.plusG isWordCh)

/-- Keyword `landfill` under re.I. -/
def landfillKind : RE := litCI "landfill"

/-- Keyword `compost\w+` under re.I. -/
def compostKind : RE := .seq (litCI "compost") (.plusG isWordCh)

/-- The period pattern (case-sensitive; app.py line 152): literal "20", two
digits, one of dash, slash or dot, then `\d{1,2}` — greedy, hence digit then
optional digit with the present branch first; all wrapped in group 1. -/
def periodRE : RE :=
  .group 1 (.seq (.chP fun c => c = '2') (.seq (.chP fun c => c = '0')
    (.seq (.chP isDigitCh) (.seq (.chP isDigitCh)
      (.seq (.chP fun c => c = '-' || c = '/' || c = '.')
        (.seq (.chP isDigitCh) (optC isDigitCh)))))))

/-- Vendor pattern `(Invoice|Vendor)[:\s]+([A-Za-z ]+)` under re.I (app.py line 153). -/
def vendorRE : RE :=
  .seq (.group 1 (.alt (litCI "invoice") (litCI "vendor")))
    (.seq (.plusG fun c => c = ':' || isSpaceCh c)
      (.group 2 (.plusG fun c => c.isAlpha || c = ' ')))

/-- Value of a digit string. -/
def digitsToNat (ds : List Char) : Nat :=
  ds.foldl (fun a c => a * 10 + (c.toNat - '0'.toNat)) 0

/-- Python `float(...)` applied to a regex capture of shape
`\d+(?:\.\d+)?`, as the exact rational value of the decimal literal:
`a.b₁…bₖ` is `(a·10^k + b)/10^k`. Built with `mkRat` so that concrete
instances reduce inside the kernel. -/
def parseNum (s : List Char) : ℚ :=
  let intPart := s.takeWhile isDigitCh
  match s.dropWhile isDigitCh with
  | '.' :: fs => mkRat (Int.ofNat (digitsToNat (intPart ++ fs))) (10 ^ fs.length)
  | _ => mkRat (Int.ofNat (digitsToNat intPart)) 1

/-- The `grab(kind)` closure of `parse_invoice_text` (app.py lines 154-157):
independent weight and cost searches, each falling back to 0.0. -/
def grab (kind : RE) (text : String) : ℚ × ℚ :=
  let kg :=
    match reSearch (kgRE kind) text with
    | some caps => match caps.lookup 1 with | some ds => parseNum ds | none => 0
    | none => 0
  let usd :=
    match reSearch (usdRE kind) text with
    | some caps => match caps.lookup 1 with | some ds => parseNum ds | none => 0
    | none => 0
  (kg, usd)

structure InvoiceLine where
  line_type : String
  weight_kg : ℚ
  cost_usd : ℚ
deriving DecidableEq, Repr

structure ParsedInvoice where
  period : String
  vendor : String
  lines : List InvoiceLine
deriving DecidableEq, Repr

/-- Python `str.strip()`: drop whitespace at both ends. -/
def pyStrip (s : List Char) : List Char :=
  ((s.dropWhile isSpaceCh).reverse.dropWhile isSpaceCh).reverse

/-- The function `parse_invoice_text` (app.py lines 150-169). A line is appended only when
the grabbed weight is truthy (non-zero float); order is recycling, compost,
landfill; period falls back to "2025-09" and vendor to "Unknown Hauler". -/
def parse_invoice_text (text : String) : ParsedInvoice :=
  let period := reSearch periodRE text
  let vendor := reSearch vendorRE text
  let r := grab recyclKind text
  let l := grab landfillKind text
  let c := grab compostKind text
  let lines : List InvoiceLine :=
    (if r.1 ≠ 0 then [⟨"recycling", r.1, r.2⟩] else []) ++
    (if c.1 ≠ 0 then [⟨"compost", c.1, c.2⟩] else []) ++
    (if l.1 ≠ 0 then [⟨"landfill", l.1, l.2⟩] else [])
  { period :=
      match period with
      | some caps => String.mk ((caps.lookup 1).getD [])
      | none => "2025-09"
    vendor :=
      match vendor with
      | some caps => String.mk (pyStrip ((caps.lookup 2).getD []))
      | none => "Unknown Hauler"
    lines := lines }

/-- Case-sensitive literal pattern. -/
def litCS (w : String) : RE :=
  w.data.foldr (fun c acc => .seq (.chP fun d => d = c) acc) .eps

/-- Python `sub in t`: the text contains the given substring. -/
def containsSubstr (t sub : String) : Bool := (reSearch (litCS sub) t).isSome

/-! ## KPI aggregator -/

structure KpiState where
  recycle_kg : ℚ
  compost_kg : ℚ
  landfill_kg : ℚ
  diversion_rate : ℚ
deriving DecidableEq, Repr

/-- Initial `mock_kpis` (app.py lines 47-52); also the state installed by
the reset endpoint (lines 269-274). -/
def init_kpis : KpiState := ⟨0, 0, 0, 0⟩

/-- Loop body of the per-item KPI update in `upload_image` (app.py lines
192-200): a route matching no branch falls through and changes nothing. -/
def routeStep (s : KpiState) (route : String) (w : ℚ) : KpiState :=
  if route = "recycle" then { s with recycle_kg := s.recycle_kg + w }
  else if route = "compost" then { s with compost_kg := s.compost_kg + w }
  else if route = "landfill" then { s with landfill_kg := s.landfill_kg + w }
  else s

/-- Loop body of the per-line KPI update in `upload_invoice` (app.py lines
233-241): a line_type matching no branch falls through and changes nothing. -/
def lineTypeStep (s : KpiState) (lt : String) (w : ℚ) : KpiState :=
  if lt = "recycling" then { s with recycle_kg := s.recycle_kg + w }
  else if lt = "compost" then { s with compost_kg := s.compost_kg + w }
  else if lt = "landfill" then { s with landfill_kg := s.landfill_kg + w }
  else s

/-- Diversion-rate recomputation, inlined after each mutation in the source
(app.py lines 202-207 and 243-248; the spec names it recompute_diversion):
guarded division, exactly 0.0 on a zero denominator. -/
def recompute_diversion (s : KpiState) : KpiState :=
  let total := s.recycle_kg + s.compost_kg + s.landfill_kg
  if total > 0 then
    { s with diversion_rate := (s.recycle_kg + s.compost_kg) / total }
  else
    { s with diversion_rate := 0 }

/-! ## External collaborators and request handlers -/

structure WasteItem where
  label : String
  route : String
  confidence : ℚ
  est_weight_kg : ℚ
  tip : String
deriving DecidableEq, Repr

/-- Hard-coded classification results used by `upload_image`
(app.py lines 185-189). -/
def mock_items : List WasteItem :=
  [⟨"plastic_bottle", "recycle", mkRat 95 100, mkRat 5 100,
      "Place plastic bottle in the recycle bin."⟩,
   ⟨"aluminum_can", "recycle", mkRat 88 100, mkRat 2 100,
      "Place aluminum can in the recycle bin."⟩,
   ⟨"pizza_box_greasy", "landfill", mkRat 92 100, mkRat 15 100,
      "Place greasy pizza box in the landfill bin."⟩]

/-- One request's view of the external world: whether each best-effort
collaborator call succeeds, whether a text-generation key is configured, and
the OCR capability (`none` models the call raising). Documents are byte
lists. -/
structure ExtEnv where
  s3_ok : Bool
  warehouse_ok : Bool
  writer_key : Bool
  writer_ok : Bool
  ocr : List Nat → Option String

/-- Outcome of `s3.put_object` (raises on failure). -/
def s3_put (env : ExtEnv) : Except String Unit :=
  if env.s3_ok then .ok () else .error "S3 upload failed"

/-- Outcome of the Snowflake insert helpers (raise on failure). -/
def warehouse_insert (env : ExtEnv) : Except String Unit :=
  if env.warehouse_ok then .ok () else .error "Snowflake insert failed"

/-- The function `writer_kpi_summary` (app.py lines 94-110): without a key a
deterministic local template, with a key an HTTP call that may raise. The
remote reply text and the exact `.1f` float rendering in the template are
abstracted (no claim inspects summary content). -/
def writer_kpi_summary (env : ExtEnv) (s : KpiState) : Except String String :=
  if env.writer_key = false then
    .ok ("Diversion " ++ toString (100 * s.diversion_rate) ++
      "%. Reduce landfill by targeting top contaminants next week.")
  else if env.writer_ok then .ok "remote summary"
  else .error "writer call failed"

/-- Boolean test for a normal (non-raising) handler outcome. -/
def isOkB {α : Type} : Except String α → Bool
  | .ok _ => true
  | .error _ => false

structure ImageResponse where
  ok : Bool
  items : List WasteItem
deriving DecidableEq, Repr

/-- KPI state produced by one image submission (app.py lines 191-207). -/
def upload_image_state (s : KpiState) : KpiState :=
  recompute_diversion
    (mock_items.foldl (fun st it => routeStep st it.route it.est_weight_kg) s)

/-- POST /upload-image (app.py lines 172-215). The S3 put and the warehouse
insert are each wrapped in try/except and only logged; classification and
tips are the hard-coded mock items; the KPI state is mutated and the
diversion rate recomputed before returning. -/
def upload_image (env : ExtEnv) (s : KpiState) :
    Except String (KpiState × ImageResponse) :=
  let _s3 := s3_put env
  let s2 := upload_image_state s
  let _db := warehouse_insert env
  .ok (s2, { ok := true, items := mock_items })

structure InvoiceResponse where
  ok : Bool
  parsed : ParsedInvoice
deriving DecidableEq, Repr

/-- Fixed text fed to the heuristic by `upload_invoice` in src/backend/app.py
(line 229). -/
def mock_invoice_text : String :=
  "Recycling 15.2 kg $45\nLandfill 8.7 kg $32\nCompost 12.1 kg $28\nPeriod 2025-01 Vendor GreenCity"

/-- Text selection of `upload_invoice` in src/backend/app.py: the uploaded
document and the OCR capability are available but never consulted; the text
is always `mock_invoice_text`. -/
def main_invoice_text (_env : ExtEnv) (_doc : List Nat) : String :=
  mock_invoice_text

/-- Sample fallback text of `upload_invoice` in the stale build copy
(src/backend/.aws-sam/build/ApiFunction/app.py line 185). -/
def sample_text_build : String :=
  "Recycling 520 kg $180\nLandfill 260 kg $210\nCompost 140 kg $90\nPeriod 2025-09 Vendor GreenCity"

/-- Text selection of `upload_invoice` in the stale build copy (lines
180-185 there): the OCR text when the call succeeds, the fixed sample text
when it raises. -/
def build_invoice_text (env : ExtEnv) (doc : List Nat) : String :=
  match env.ocr doc with
  | some t => t
  | none => sample_text_build

/-- KPI state produced by one invoice submission (app.py lines 230-248). -/
def upload_invoice_state (s : KpiState) : KpiState :=
  recompute_diversion
    ((parse_invoice_text mock_invoice_text).lines.foldl
      (fun st L => lineTypeStep st L.line_type L.weight_kg) s)

/-- POST /upload-invoice (app.py lines 217-256). The S3 put and the
warehouse insert are wrapped in try/except; the heuristic runs on
`main_invoice_text` (the fixed mock text), the KPI state is mutated with the
parsed lines and the diversion rate recomputed before returning. -/
def upload_invoice (env : ExtEnv) (doc : List Nat) (s : KpiState) :
    Except String (KpiState × InvoiceResponse) :=
  let _s3 := s3_put env
  let parsed := parse_invoice_text (main_invoice_text env doc)
  let s2 := recompute_diversion
    (parsed.lines.foldl (fun st L => lineTypeStep st L.line_type L.weight_kg) s)
  let _db := warehouse_insert env
  .ok (s2, { ok := true, parsed := parsed })

structure KpiResponse where
  recycle_kg : ℚ
  compost_kg : ℚ
  landfill_kg : ℚ
  diversion_rate : ℚ
  summary : String
deriving DecidableEq, Repr

/-- GET /kpis (app.py lines 258-263): copies the state and attaches the
writer summary. The `writer_kpi_summary` call is NOT wrapped in try/except,
so its failure propagates out of the handler. -/
def kpis (env : ExtEnv) (s : KpiState) : Except String KpiResponse :=
  (writer_kpi_summary env s).map fun sum =>
    { recycle_kg := s.recycle_kg, compost_kg := s.compost_kg,
      landfill_kg := s.landfill_kg, diversion_rate := s.diversion_rate,
      summary := sum }

structure ResetResponse where
  ok : Bool
  message : String
deriving DecidableEq, Repr

/-- POST /reset-kpis (app.py lines 265-275): no external calls; restores the
initial state. -/
def reset_kpis : KpiState × ResetResponse :=
  (init_kpis, { ok := true, message := "KPIs reset to zero" })

/-- Invariant claimed for the derived field (spec section 3). -/
def diversionInvariant (s : KpiState) : Prop :=
  s.diversion_rate =
    if s.recycle_kg + s.compost_kg + s.landfill_kg > 0 then
      (s.recycle_kg + s.compost_kg) /
        (s.recycle_kg + s.compost_kg + s.landfill_kg)
    else 0

/-! ## Theorems -/

/-- Recomputation establishes the diversion invariant from any state. -/
theorem diversionInvariant_recompute (s : KpiState) :
    diversionInvariant (recompute_diversion s) := by
  unfold diversionInvariant recompute_diversion
  dsimp only
  split <;> simp_all

/-- C1 counterexample: the text "Recycling 520 kg $180" contains the claimed
substring, yet no recycling line with weight_kg 520 and cost_usd 180 is
returned — the cost search captures 520, the first number after the keyword,
because its dollar sign is optional. -/
theorem C1_counterexample :
    containsSubstr "Recycling 520 kg $180" "Recycling 520 kg $180" = true ∧
    ¬∃ l ∈ (parse_invoice_text "Recycling 520 kg $180").lines,
      l.line_type = "recycling" ∧ l.weight_kg = 520 ∧ l.cost_usd = 180 := by decide

/-- C1 amended: on the input text "Recycling 520 kg $180" itself,
parse_invoice_text returns exactly one recycling line with weight_kg 520.0
and cost_usd 520.0 (not 180.0), fallback period and fallback vendor. -/
theorem C1_recycling_520 :
    parse_invoice_text "Recycling 520 kg $180" =
      ⟨"2025-09", "Unknown Hauler", [⟨"recycling", 520, 520⟩]⟩ := by decide

/-- C2 counterexample: on the exact mock invoice text the parser does NOT
return the lines [{recycling,15.2,45},{compost,12.1,28},{landfill,8.7,32}]
with period 2025-01 and vendor GreenCity claimed by the spec. -/
theorem C2_counterexample :
    parse_invoice_text mock_invoice_text ≠
      ⟨"2025-01", "GreenCity",
        [⟨"recycling", mkRat 76 5, 45⟩, ⟨"compost", mkRat 121 10, 28⟩,
         ⟨"landfill", mkRat 87 10, 32⟩]⟩ := by decide

/-- C2 amended: on the exact mock invoice text, parse_invoice_text returns
period "2025-01", vendor "GreenCity", and exactly two lines — recycling with
weight 15.2 and cost 15.2, then landfill with weight 8.7 and cost 8.7. The
compost line is absent because the keyword pattern requires a word character
after "compost", and each cost equals the weight because the cost pattern
captures the first number after the keyword. -/
theorem C2_mock_invoice_parse :
    parse_invoice_text mock_invoice_text =
      ⟨"2025-01", "GreenCity",
        [⟨"recycling", mkRat 76 5, mkRat 76 5⟩,
         ⟨"landfill", mkRat 87 10, mkRat 87 10⟩]⟩ := by decide

/-- C3 counterexample: with a text-generation key configured and the
text-generation call failing, GET /kpis propagates the error instead of
returning normally — the failure is not caught at its call site. -/
theorem C3_counterexample :
    isOkB (kpis ⟨true, true, true, false, fun _ => none⟩ init_kpis) = false := by
  decide

/-- C3 amended: under every pattern of external failures the two POST
endpoints return normally with ok true (storage and warehouse failures are
swallowed at their call sites) and reset returns ok true; GET /kpis returns
normally exactly when the text-generation call is unconfigured or succeeds,
since the kpis handler does not guard writer_kpi_summary. -/
theorem C3_endpoints_best_effort (env : ExtEnv) (doc : List Nat) (s : KpiState) :
    upload_image env s = .ok (upload_image_state s, ⟨true, mock_items⟩) ∧
    upload_invoice env doc s =
      .ok (upload_invoice_state s, ⟨true, parse_invoice_text mock_invoice_text⟩) ∧
    isOkB (kpis env s) = (!env.writer_key || env.writer_ok) ∧
    reset_kpis.2.ok = true := by
  rcases env with ⟨a, b, wk, wo, o⟩
  exact ⟨rfl, rfl, by cases wk <;> cases wo <;> rfl, rfl⟩

/-- C4 counterexample: an OCR capability that is available and succeeds with
a known text is never consulted by upload_invoice in src/backend/app.py —
the heuristic is fed the fixed mock text instead of the OCR output. -/
theorem C4_counterexample :
    (⟨true, true, false, true, fun _ => some "Recycling 77 kg" ⟩ : ExtEnv).ocr [0]
        = some "Recycling 77 kg" ∧
    main_invoice_text ⟨true, true, false, true, fun _ => some "Recycling 77 kg" ⟩ [0]
        = mock_invoice_text ∧
    mock_invoice_text ≠ "Recycling 77 kg" := by decide

/-- C4 amended: in src/backend/app.py the invoice handler never invokes OCR —
the heuristic input is always the fixed mock text and the handler result is
identical for all uploaded documents; the OCR-with-sample-fallback flow
exists only in the stale build copy, where the OCR text is used whenever the
call succeeds and the fixed sample text exactly when it fails. -/
theorem C4_ocr_never_used (env : ExtEnv) (doc d1 d2 : List Nat) (s : KpiState) :
    main_invoice_text env doc = mock_invoice_text ∧
    upload_invoice env d1 s = upload_invoice env d2 s ∧
    (∀ t, env.ocr doc = some t → build_invoice_text env doc = t) ∧
    (env.ocr doc = none → build_invoice_text env doc = sample_text_build) := by
  refine ⟨rfl, rfl, ?_, ?_⟩
  · intro t h; simp [build_invoice_text, h]
  · intro h; simp [build_invoice_text, h]

/-- C4 witness: the amended theorem applied at a succeeding and at a failing
OCR capability. -/
theorem C4_ocr_never_used_witness :
    build_invoice_text ⟨true, true, false, true, fun _ => some "OCR text" ⟩ [0]
        = "OCR text" ∧
    build_invoice_text ⟨true, true, false, true, fun _ => none⟩ [0]
        = sample_text_build :=
  ⟨(C4_ocr_never_used ⟨true, true, false, true, fun _ => some "OCR text" ⟩
      [0] [0] [0] init_kpis).2.2.1 "OCR text" rfl,
   (C4_ocr_never_used ⟨true, true, false, true, fun _ => none⟩
      [0] [0] [0] init_kpis).2.2.2 rfl⟩

/-- C5: after an image submission, after an invoice submission, and after
reset, the diversion rate equals (recycle + compost) / total when the total
is positive and is exactly 0 when the total is 0 — never a division
error. -/
theorem C5_diversion_invariant (s : KpiState) :
    diversionInvariant (upload_image_state s) ∧
    diversionInvariant (upload_invoice_state s) ∧
    diversionInvariant reset_kpis.1 := by
  refine ⟨diversionInvariant_recompute _, diversionInvariant_recompute _, ?_⟩
  show diversionInvariant init_kpis
  unfold diversionInvariant init_kpis
  norm_num

/-- C6: for every text, a category line is emitted iff the grabbed weight is
non-zero; in particular, when the weight search for a category fails (for
example a cost-only line), no line for that category appears. -/
theorem C6_line_iff_nonzero_weight (t : String) :
    ((∃ l ∈ (parse_invoice_text t).lines, l.line_type = "recycling") ↔
      (grab recyclKind t).1 ≠ 0) ∧
    ((∃ l ∈ (parse_invoice_text t).lines, l.line_type = "compost") ↔
      (grab compostKind t).1 ≠ 0) ∧
    ((∃ l ∈ (parse_invoice_text t).lines, l.line_type = "landfill") ↔
      (grab landfillKind t).1 ≠ 0) ∧
    (reSearch (kgRE recyclKind) t = none →
      ¬∃ l ∈ (parse_invoice_text t).lines, l.line_type = "recycling") ∧
    (reSearch (kgRE compostKind) t = none →
      ¬∃ l ∈ (parse_invoice_text t).lines, l.line_type = "compost") ∧
    (reSearch (kgRE landfillKind) t = none →
      ¬∃ l ∈ (parse_invoice_text t).lines, l.line_type = "landfill") := by
  have key :
      ((∃ l ∈ (parse_invoice_text t).lines, l.line_type = "recycling") ↔
        (grab recyclKind t).1 ≠ 0) ∧
      ((∃ l ∈ (parse_invoice_text t).lines, l.line_type = "compost") ↔
        (grab compostKind t).1 ≠ 0) ∧
      ((∃ l ∈ (parse_invoice_text t).lines, l.line_type = "landfill") ↔
        (grab landfillKind t).1 ≠ 0) := by
    refine ⟨?_, ?_, ?_⟩ <;>
      · simp only [parse_invoice_text]
        split_ifs <;> simp_all
  have gnone : ∀ k, reSearch (kgRE k) t = none → (grab k t).1 = 0 := by
    intro k h; simp [grab, h]
  refine ⟨key.1, key.2.1, key.2.2, ?_, ?_, ?_⟩
  · intro h; rw [key.1, gnone _ h]; simp
  · intro h; rw [key.2.1, gnone _ h]; simp
  · intro h; rw [key.2.2, gnone _ h]; simp

/-- C6 witness: "Composting fee $28" has a compost cost match but no compost
weight match, and indeed no compost line is emitted. -/
theorem C6_line_iff_nonzero_weight_witness :
    reSearch (kgRE compostKind) "Composting fee $28" = none ∧
    reSearch (usdRE compostKind) "Composting fee $28" ≠ none ∧
    ¬∃ l ∈ (parse_invoice_text "Composting fee $28").lines,
      l.line_type = "compost" :=
  ⟨by decide, by decide,
   (C6_line_iff_nonzero_weight "Composting fee $28").2.2.2.2.1 (by decide)⟩

/-- C7: for every input text, the emitted line_types form a sublist of
[recycling, compost, landfill] — the output order is fixed regardless of the
order of categories in the text. -/
theorem C7_fixed_output_order (t : String) :
    ((parse_invoice_text t).lines.map (fun l => l.line_type)).Sublist
      ["recycling", "compost", "landfill"] := by
  simp only [parse_invoice_text]
  split_ifs <;> simp

/-- C8: when no substring matches the period pattern the period falls back
to "2025-09", and when no substring matches the Invoice/Vendor pattern the
vendor falls back to "Unknown Hauler". -/
theorem C8_fallback_period_vendor (t : String) :
    (reSearch periodRE t = none → (parse_invoice_text t).period = "2025-09") ∧
    (reSearch vendorRE t = none → (parse_invoice_text t).vendor = "Unknown Hauler") := by
  constructor <;> intro h <;> simp [parse_invoice_text, h]

/-- C8 witness: the fallbacks on a text with no period and no vendor token. -/
theorem C8_fallback_period_vendor_witness :
    (reSearch periodRE "Recycling 5 kg" = none ∧
      (parse_invoice_text "Recycling 5 kg").period = "2025-09") ∧
    (reSearch vendorRE "Recycling 5 kg" = none ∧
      (parse_invoice_text "Recycling 5 kg").vendor = "Unknown Hauler") :=
  ⟨⟨by decide, (C8_fallback_period_vendor "Recycling 5 kg").1 (by decide)⟩,
   ⟨by decide, (C8_fallback_period_vendor "Recycling 5 kg").2 (by decide)⟩⟩

/-- C9: applying a weight with any route or line_type outside
{recycle, recycling, compost, landfill} leaves the KPI state unchanged in
both update loops — the update is silently ignored. -/
theorem C9_unrecognized_route_ignored (s : KpiState) (v : String) (w : ℚ)
    (h : v ≠ "recycle" ∧ v ≠ "recycling" ∧ v ≠ "compost" ∧ v ≠ "landfill") :
    routeStep s v w = s ∧ lineTypeStep s v w = s := by
  obtain ⟨h1, h2, h3, h4⟩ := h
  constructor <;> simp [routeStep, lineTypeStep, h1, h2, h3, h4]

/-- C9 witness: the route "glass" changes nothing. -/
theorem C9_unrecognized_route_ignored_witness :
    routeStep init_kpis "glass" 1 = init_kpis ∧
    lineTypeStep init_kpis "glass" 1 = init_kpis :=
  C9_unrecognized_route_ignored init_kpis "glass" 1 (by decide)

/-- C10: for every input text, every emitted line records as weight_kg
exactly the rational value of the digit string captured by the weight search
for its category — whichever unit alternative (kg or ton(s)) terminated the
match, no conversion is applied to the captured number. Concrete ton
instances: "Recycling 2 tons" yields weight_kg 2.0 (not 2000.0),
"Composting 15.2 tons" yields the compost line with weight_kg 15.2 (not
15200.0), and a tons weight inside surrounding text behaves the same. -/
theorem C10_tons_not_converted :
    (∀ (t : String), ∀ l ∈ (parse_invoice_text t).lines,
      ∃ caps ds,
        reSearch (kgRE (if l.line_type = "recycling" then recyclKind
            else if l.line_type = "compost" then compostKind
            else landfillKind)) t = some caps ∧
        caps.lookup 1 = some ds ∧ l.weight_kg = parseNum ds) ∧
    (parse_invoice_text "Recycling 2 tons").lines = [⟨"recycling", 2, 2⟩] ∧
    (2 : ℚ) ≠ 2000 ∧
    (parse_invoice_text "Composting 15.2 tons").lines =
      [⟨"compost", mkRat 76 5, mkRat 76 5⟩] ∧
    mkRat 76 5 ≠ mkRat 15200 1 ∧
    (parse_invoice_text "Total waste report\nLandfill 3.5 tons $99\nEnd").lines =
      [⟨"landfill", mkRat 7 2, mkRat 7 2⟩] := by
  refine ⟨?_, by decide, by decide, by decide, by decide, by decide⟩
  intro t l hl
  have gr : ∀ (k : RE), (grab k t).1 ≠ 0 → ∃ caps ds,
      reSearch (kgRE k) t = some caps ∧ caps.lookup 1 = some ds ∧
      (grab k t).1 = parseNum ds := by
    intro k hne
    rcases h : reSearch (kgRE k) t with _ | caps
    · exact absurd (by simp [grab, h]) hne
    · rcases h2 : caps.lookup 1 with _ | ds
      · exact absurd (by simp [grab, h, h2]) hne
      · exact ⟨caps, ds, rfl, h2, by simp [grab, h, h2]⟩
  simp only [parse_invoice_text, List.mem_append] at hl
  rcases hl with (hl | hl) | hl
  · split_ifs at hl with hr
    · rcases List.mem_singleton.mp hl with rfl
      simpa using gr recyclKind hr
    · exact absurd hl (List.not_mem_nil _)
  · split_ifs at hl with hc
    · rcases List.mem_singleton.mp hl with rfl
      simpa using gr compostKind hc
    · exact absurd hl (List.not_mem_nil _)
  · split_ifs at hl with hf
    · rcases List.mem_singleton.mp hl with rfl
      simpa using gr landfillKind hf
    · exact absurd hl (List.not_mem_nil _)

/-- C10 witness: the universal part applied at the claim's own instance —
the recycling line of "Recycling 2 tons" carries exactly the captured
number. -/
theorem C10_tons_not_converted_witness :
    (⟨"recycling", 2, 2⟩ : InvoiceLine) ∈
      (parse_invoice_text "Recycling 2 tons").lines ∧
    ∃ caps ds, reSearch (kgRE recyclKind) "Recycling 2 tons" = some caps ∧
      caps.lookup 1 = some ds ∧ (2 : ℚ) = parseNum ds :=
  ⟨by decide,
   C10_tons_not_converted.1 "Recycling 2 tons" ⟨"recycling", 2, 2⟩ (by decide)⟩

end SortSense
